import Mathlib

/-!
Shallow embedding of the peak-characterization and component-analysis
pipeline of `src/hyperspy/signals/image.py` (class `Image`).

Frames (2-D images) are modelled as rational-valued functions of pixel
coordinates; numpy float arrays become rationals.  The external per-frame
detector `two_dim_findpeaks` (module `hyperspy.peak_char`, not among the
sources) is an abstract parameter returning the list of detected (x, y)
coordinate pairs, and `peak_attribs_image` is an abstract parameter
returning detected 7-field peak records.
-/

namespace Exspy

/-- A 2-D image frame: (row, column) index to sample value. -/
def Frame : Type := Nat → Nat → ℚ

/-- One peak record: the 7 characteristic fields documented in
`peak_char_stack` (rows 0-1 the x,y coordinate, rows 2-3 the deviation from
the matched target, row 4 the height, row 5 the orientation, row 6 the
eccentricity). -/
structure PeakRec where
  x : ℚ
  y : ℚ
  dx_target : ℚ
  dy_target : ℚ
  height : ℚ
  orientation : ℚ
  eccentricity : ℚ
deriving DecidableEq

instance : Inhabited PeakRec := ⟨⟨0, 0, 0, 0, 0, 0, 0⟩⟩

/-- The 7-entry row of one peak record, in the documented field order. -/
def flattenRec (r : PeakRec) : List ℚ :=
  [r.x, r.y, r.dx_target, r.dy_target, r.height, r.orientation, r.eccentricity]

/-- Concatenation of per-peak 7-entry rows: the layout of one column of the
`peak_chars` matrix (7 rows per located peak, `peak_char_stack` docstring). -/
def flattenChars : List PeakRec → List ℚ
  | [] => []
  | r :: rs => flattenRec r ++ flattenChars rs

/-! ## Peak-finding dispatch (`peakfind_2D`, image.py lines 509-566) -/

/-- Entry (slot, field, image) of the preallocated `(maxpeakn, 2, N)` result
buffer after the fill loop of the 3-D branch (lines 546-552): slots below the
per-image detection count hold that image's detections, the remaining slots
keep the preallocated zeros.  `find3 i` stands for
`two_dim_findpeaks(self.data[:,:,i], ...)`. -/
def bufEntry3 (find3 : Nat → List (ℚ × ℚ)) (slot field img : Nat) : ℚ :=
  match (find3 img).get? slot with
  | some p => if field = 0 then p.1 else p.2
  | none => 0

/-- Per-slot total `np.sum(np.sum(self.peaks, axis=2), axis=1)` (line 553):
first sum over the image axis, then over the two coordinate fields. -/
def slotSum3D (find3 : Nat → List (ℚ × ℚ)) (n slot : Nat) : ℚ :=
  (([0, 1] : List Nat).map (fun field =>
    ((List.range n).map (fun i => bufEntry3 find3 slot field i)).sum)).sum

/-- Entry (slot, field, i, j) of the preallocated `(maxpeakn, 2, N, M)`
buffer of the 4-D branch (lines 557-564).  `find4 i j` stands for
`two_dim_findpeaks(self.data[i,j,:,:], ...)`. -/
def bufEntry4 (find4 : Nat → Nat → List (ℚ × ℚ)) (slot field i j : Nat) : ℚ :=
  match (find4 i j).get? slot with
  | some p => if field = 0 then p.1 else p.2
  | none => 0

/-- Per-slot total `np.sum(np.sum(np.sum(self.peaks, axis=3), axis=2), axis=1)`
(line 565). -/
def slotSum4D (find4 : Nat → Nat → List (ℚ × ℚ)) (n m slot : Nat) : ℚ :=
  (([0, 1] : List Nat).map (fun field =>
    ((List.range n).map (fun i =>
      ((List.range m).map (fun j => bufEntry4 find4 slot field i j)).sum)).sum)).sum

/-- `np.min(np.nonzero(pred)[0])` over indices `start ≤ s < start + fuel`:
the least index satisfying `p`, or `none` when the index set is empty (numpy
raises `ValueError` on `np.min` of an empty selection). -/
def firstSat (p : Nat → Bool) : Nat → Nat → Option Nat
  | _, 0 => none
  | start, fuel + 1 => if p start then some start else firstSat p (start + 1) fuel

/-- `trim_id` of the 3-D branch (line 553): least slot index whose
accumulated value over all images and both fields is exactly zero. -/
def trimId3D (find3 : Nat → List (ℚ × ℚ)) (maxpeakn n : Nat) : Option Nat :=
  firstSat (fun s => decide (slotSum3D find3 n s = 0)) 0 maxpeakn

/-- The trimmed 3-D result `self.peaks[:trim_id,:,:]` (line 554). -/
structure Peaks3D where
  numSlots : Nat
  entry : Nat → Nat → Nat → ℚ

/-- The 3-D branch of `peakfind_2D` (lines 544-554): fill the preallocated
buffer image by image, then truncate at `trim_id`; `none` models the
`ValueError` raised by `np.min` on an empty index set. -/
def peakfind3D (find3 : Nat → List (ℚ × ℚ)) (maxpeakn n : Nat) : Option Peaks3D :=
  (trimId3D find3 maxpeakn n).map (fun t =>
    ⟨t, fun slot field img => if slot < t then bufEntry3 find3 slot field img else 0⟩)

/-- `trim_id` of the 4-D branch (line 565). -/
def trimId4D (find4 : Nat → Nat → List (ℚ × ℚ)) (maxpeakn n m : Nat) : Option Nat :=
  firstSat (fun s => decide (slotSum4D find4 n m s = 0)) 0 maxpeakn

/-- The trimmed 4-D result `self.peaks[:trim_id,:,:,:]` (line 566). -/
structure Peaks4D where
  numSlots : Nat
  entry : Nat → Nat → Nat → Nat → ℚ

/-- The 4-D branch of `peakfind_2D` (lines 555-566). -/
def peakfind4D (find4 : Nat → Nat → List (ℚ × ℚ)) (maxpeakn n m : Nat) : Option Peaks4D :=
  (trimId4D find4 maxpeakn n m).map (fun t =>
    ⟨t, fun slot field i j => if slot < t then bufEntry4 find4 slot field i j else 0⟩)

/-- Raised conditions of the dispatch.  `minOfEmptySlice` is the `ValueError`
numpy raises in `np.min(np.nonzero(...))` when no slot sums to zero.
`unsupportedRank` is the condition the specification claims for input ranks
outside {2, 3, 4}; the source has no corresponding code path. -/
inductive TrimError where
  | minOfEmptySlice
  | unsupportedRank
deriving DecidableEq

/-- What `peakfind_2D` leaves in `self.peaks`.  `noResult` records the
fall-through of the `if/elif` chain for ranks outside {2, 3, 4}: the method
returns without touching `self.peaks` and without raising. -/
inductive DispatchResult where
  | peaks2D : List (ℚ × ℚ) → DispatchResult
  | peaks3D : Peaks3D → DispatchResult
  | peaks4D : Peaks4D → DispatchResult
  | noResult : DispatchResult

/-- The rank dispatch of `peakfind_2D` (lines 539-566).  The data array is
represented by its shape list together with the abstract per-frame detector
results: `find2` for the rank-2 case, `find3 i` for frame `i` of a rank-3
stack (image axis last, `shape[2]`), `find4 i j` for frame `(i, j)` of a
rank-4 stack (navigation axes first, `shape[0]` and `shape[1]`). -/
def peakfind_2D (shape : List Nat) (find2 : List (ℚ × ℚ))
    (find3 : Nat → List (ℚ × ℚ)) (find4 : Nat → Nat → List (ℚ × ℚ))
    (maxpeakn : Nat) : Except TrimError DispatchResult :=
  if shape.length = 2 then .ok (.peaks2D find2)
  else if shape.length = 3 then
    match peakfind3D find3 maxpeakn (shape.getD 2 0) with
    | some r => .ok (.peaks3D r)
    | none => .error .minOfEmptySlice
  else if shape.length = 4 then
    match peakfind4D find4 maxpeakn (shape.getD 0 0) (shape.getD 1 0) with
    | some r => .ok (.peaks4D r)
    | none => .error .minOfEmptySlice
  else .ok .noResult

/-! ## Cluster bookkeeping (`kmeans_cluster_stack`, image.py lines 456-507)

The grouping decision itself is delegated to `mdp.nodes.KMeansClassifier`
(external); `groups` is its returned label list, one label per stack member. -/

/-- The member indices of cluster `i`, in original stack order: the indices
`j` with `groups[j] == i` collected by the fill loop (lines 482-489). -/
def clusterMembers (groups : List Nat) (i : Nat) : List Nat :=
  (List.range groups.length).filter (fun j => groups.getD j 0 == i)

/-- `cluster_array` for cluster `i`: the member frames in original order
(lines 479-489). -/
def cluster_array (d : Nat → Frame) (groups : List Nat) (i : Nat) : List Frame :=
  (clusterMembers groups i).map d

/-- Row `i` of `avg_stack`: `np.sum(cluster_array, axis=0)` (line 499), the
elementwise sum of the member frames. -/
def avg_stack_frame (d : Nat → Frame) (groups : List Nat) (i : Nat) : Frame :=
  fun r c => ((cluster_array d groups i).map (fun f => f r c)).sum

/-- The per-cluster frame as the specification words it: the elementwise
MEAN of the member frames.  Stated for comparison with `avg_stack_frame`. -/
def clusterMeanSpec (d : Nat → Frame) (groups : List Nat) (i : Nat) : Frame :=
  fun r c => ((cluster_array d groups i).map (fun f => f r c)).sum
    / ((clusterMembers groups i).length : ℚ)

/-- The outputs of `kmeans_cluster_stack` in scope here: the per-cluster
frames of `avg_stack` and the reported `members_list`
(`[groups.count(i) for i in xrange(clusters)]`, line 500). -/
def kmeans_cluster_stack (d : Nat → Frame) (groups : List Nat) (clusters : Nat) :
    (Nat → Frame) × List Nat :=
  (fun i => avg_stack_frame d groups i, (List.range clusters).map (fun i => groups.count i))

/-! ## Component selection (`_plot_factors_or_pchars`, image.py lines 124-175)

The per-component work is handed to `imgdraw._plot_component(f_pc=factors,
idx=comp_ids[i], ...)`, whose body is not among the sources.
Modelled from the spec: `select` extracts the factor vector of the requested
component as the column `factors[:, idx]` of the factor matrix, and an
out-of-range component id fails with `ComponentIndexError` (numpy raises
`IndexError` on an out-of-range column). -/

/-- An opaque 2-D factor matrix: columns are components (`factors.shape[1]`
columns, `factors.shape[0]` rows). -/
structure FactorMatrix where
  nrows : Nat
  ncols : Nat
  entry : Nat → Nat → ℚ

/-- Failure condition of component selection. -/
inductive SelErr where
  | componentIndexError
deriving DecidableEq

/-- `factors[:, idx]`: the factor vector of component `idx`, failing when
`idx` is not below the column count. -/
def getColumn (m : FactorMatrix) (idx : Nat) : Except SelErr (List ℚ) :=
  if idx < m.ncols then
    .ok ((List.range m.nrows).map (fun r => m.entry r idx))
  else .error .componentIndexError

/-- The duck-typed `comp_ids` argument: `None`, a count, or a list of ids. -/
inductive CompIds where
  | all : CompIds
  | upTo : Nat → CompIds
  | explicit : List Nat → CompIds

/-- Normalization at lines 150-154: `None` becomes
`xrange(factors.shape[1])`, an int `m` becomes `xrange(m)`, a list is used
as given. -/
def normalizeCompIds (m : FactorMatrix) : CompIds → List Nat
  | .all => List.range m.ncols
  | .upTo n => List.range n
  | .explicit ids => ids

/-- The selection loop of lines 163-174: each requested id has its factor
vector extracted in turn; the first out-of-range id aborts the call. -/
def selectColumns (m : FactorMatrix) : List Nat → Except SelErr (List (List ℚ))
  | [] => .ok []
  | idx :: rest =>
    match getColumn m idx with
    | .ok v =>
      match selectColumns m rest with
      | .ok vs => .ok (v :: vs)
      | .error e => .error e
    | .error e => .error e

/-- `_plot_factors_or_pchars` restricted to its component-selection effect:
normalize `comp_ids`, then select each component's factor vector. -/
def plotFactorsOrPchars (m : FactorMatrix) (ids : CompIds) :
    Except SelErr (List (List ℚ)) :=
  selectColumns m (normalizeCompIds m ids)

/-! ## Coordinate-mapping guard (`plot_image_overlay`, image.py lines 622-745) -/

/-- Failure conditions of `plot_image_overlay`, in guard order: missing
origin catalogue (lines 666-670), a peak id with nothing selected to plot
(671-674), `peak_mva` with nothing selected (675-678), both a characteristic
and a component requested (679-684).  Each is a warned early `return None`
in the source. -/
inductive OverlayError where
  | noProvenance
  | nothingToPlot
  | nothingSelected
  | charAndComponentConflict
deriving DecidableEq

/-- Python truthiness of the `None`-or-int `plot_component` argument. -/
def optNatTruthy : Option Nat → Bool
  | none => false
  | some n => n != 0

/-- The guard chain of `plot_image_overlay`.  `originalFiles` is
`self.mapped_parameters.original_files` when present (the origin catalogue
keyed by parent filename); the per-key rendering of the success branch is
out of scope and is abstracted to returning the parent keys processed. -/
def plot_image_overlay (originalFiles : Option (List String)) (peak_id : Option Nat)
    (plot_char : Option Nat) (plot_shift : Bool) (peak_mva : Bool)
    (plot_component : Option Nat) : Except OverlayError (List String) :=
  match originalFiles with
  | none => .error .noProvenance
  | some files =>
    if peak_id.isSome && (!plot_shift && plot_char.isNone) then .error .nothingToPlot
    else if peak_mva && !(plot_char.isSome || plot_shift || optNatTruthy plot_component) then
      .error .nothingSelected
    else if plot_char.isSome && plot_component.isSome then .error .charAndComponentConflict
    else .ok files

/-! ## Per-peak slices of a component (`plot_cell_overlays`, lines 818-828) -/

/-- `component[pos*7+2 : pos*7+4]` (line 826): the shift pair of target peak
`pos` sliced out of the chosen component's factor vector. -/
def peak_shift (v : List ℚ) (p : Nat) : List ℚ :=
  (v.drop (7 * p + 2)).take 2

/-- `component[pos*7 + plot_char]` (line 828): one characteristic scalar of
target peak `pos`; `none` models the numpy `IndexError` out of range. -/
def peak_characteristic (v : List ℚ) (p w : Nat) : Option ℚ :=
  v.get? (7 * p + w)

/-! ## Target derivation (`plot_cell_overlays` lines 805-811 and
`plot_peak_ids` lines 605-609) -/

/-- `np.average(data, axis=0)` over a stack of `n` frames. -/
def np_average0 (d : Nat → Frame) (n : Nat) : Frame :=
  fun r c => ((List.range n).map (fun i => d i r c)).sum / (n : ℚ)

/-- The elementwise average frame of the stack, as the specification words
it.  Stated for comparison with `np_average0`. -/
def specAverageFrame (d : Nat → Frame) (n : Nat) : Frame :=
  fun r c => ((List.range n).map (fun i => d i r c)).sum / (n : ℚ)

/-- Target-location derivation: when `target_locations` is `None` it becomes
`pc.peak_attribs_image(imgavg, peak_width)[:, :2]`, the first two entries of
each detected record's 7-entry row.  Modelled from the spec:
`peak_attribs_image` (module `hyperspy.peak_char`, not among the sources) is
the abstract `detect` parameter returning 7-field peak records. -/
def derived_target_locations (detect : Frame → List PeakRec) (d : Nat → Frame)
    (n : Nat) (tl : Option (List (List ℚ))) : List (List ℚ) :=
  match tl with
  | some t => t
  | none => (detect (np_average0 d n)).map (fun r => (flattenRec r).take 2)

/-! ## Concrete inputs used by the closed instances below -/

/-- A detector finding no peaks in any rank-3 frame. -/
def noFind3 : Nat → List (ℚ × ℚ) := fun _ => []

/-- A detector finding no peaks in any rank-4 frame. -/
def noFind4 : Nat → Nat → List (ℚ × ℚ) := fun _ _ => []

/-- A detector finding the single peak (1, 2) in every rank-3 frame. -/
def oneFind3 : Nat → List (ℚ × ℚ) := fun _ => [(1, 2)]

/-- A detector finding the single peak (1, 2) in every rank-4 frame. -/
def oneFind4 : Nat → Nat → List (ℚ × ℚ) := fun _ _ => [(1, 2)]

/-- An all-ones stack of frames. -/
def onesStack : Nat → Frame := fun _ _ _ => 1

/-- A tiny concrete factor matrix with two components. -/
def smallFactors : FactorMatrix := ⟨1, 2, fun r c => (r : ℚ) + c⟩

/-- A single concrete peak record with distinct field values. -/
def sampleRecs : List PeakRec := [⟨1, 2, 3, 4, 5, 6, 7⟩]

/-- A one-component factor matrix whose column is the flattened
characteristic layout of `sampleRecs`. -/
def sampleFactors : FactorMatrix :=
  ⟨7, 1, fun r _ => (flattenChars sampleRecs).getD r 0⟩

/-! ## Helper lemmas -/

/-- A successful `firstSat` search returns a satisfying index inside the
scanned window, and every smaller scanned index fails the predicate. -/
theorem firstSat_some {p : Nat → Bool} :
    ∀ (fuel start t : Nat), firstSat p start fuel = some t →
      p t = true ∧ start ≤ t ∧ t < start + fuel ∧
        ∀ s, start ≤ s → s < t → p s = false := by
  intro fuel
  induction fuel with
  | zero => intro start t h; simp [firstSat] at h
  | succ f ih =>
    intro start t h
    rw [firstSat] at h
    by_cases hp : p start = true
    · rw [if_pos hp] at h
      obtain rfl : start = t := by injection h
      exact ⟨hp, Nat.le_refl _, by omega, fun s hs1 hs2 => absurd hs2 (by omega)⟩
    · rw [if_neg hp] at h
      have hpf : p start = false := by
        cases hps : p start
        · rfl
        · exact absurd hps hp
      obtain ⟨h1, h2, h3, h4⟩ := ih (start + 1) t h
      refine ⟨h1, by omega, by omega, fun s hs1 hs2 => ?_⟩
      rcases Nat.eq_or_lt_of_le hs1 with heq | hlt
      · exact heq ▸ hpf
      · exact h4 s hlt hs2

/-- `firstSat` returns `none` when no index in the scanned window satisfies
the predicate. -/
theorem firstSat_none {p : Nat → Bool} :
    ∀ (fuel start : Nat), (∀ s, start ≤ s → s < start + fuel → p s = false) →
      firstSat p start fuel = none := by
  intro fuel
  induction fuel with
  | zero => intro start _; rfl
  | succ f ih =>
    intro start h
    rw [firstSat]
    have hps : p start = false := h start (Nat.le_refl _) (by omega)
    rw [if_neg (by simp [hps])]
    exact ih (start + 1) (fun s hs1 hs2 => h s (by omega) (by omega))

/-- Sum of a constantly-zero map. -/
theorem sum_map_zero (l : List Nat) : (l.map (fun _ => (0 : ℚ))).sum = 0 := by
  induction l with
  | nil => rfl
  | cons a l ih => simp [ih]

/-- Sum of a constant map. -/
theorem sum_map_const (l : List Nat) (c : ℚ) :
    (l.map (fun _ => c)).sum = (l.length : ℚ) * c := by
  induction l with
  | nil => simp
  | cons a l ih =>
    simp [ih]
    ring

/-- A sum of two nonnegative rationals, not both zero, is positive. -/
theorem add_pos_of_nonneg_ne {x y : ℚ} (hx : 0 ≤ x) (hy : 0 ≤ y)
    (hne : ¬(x = 0 ∧ y = 0)) : 0 < x + y := by
  by_cases hx0 : x = 0
  · have hy0 : y ≠ 0 := fun h => hne ⟨hx0, h⟩
    have : 0 < y := lt_of_le_of_ne hy (Ne.symm hy0)
    linarith
  · have : 0 < x := lt_of_le_of_ne hx (Ne.symm hx0)
    linarith

/-- Buffer entries above slot 0 stay zero for a one-peak-per-image stack. -/
theorem bufEntry3_single_high (x y : ℚ) (t field i : Nat) :
    bufEntry3 (fun _ => [(x, y)]) (t + 1) field i = 0 := rfl

/-- Slot sums above slot 0 vanish for a one-peak-per-image stack. -/
theorem slotSum3D_single_high (x y : ℚ) (n t : Nat) :
    slotSum3D (fun _ => [(x, y)]) n (t + 1) = 0 := by
  unfold slotSum3D
  simp only [bufEntry3_single_high]
  simp [sum_map_zero]

/-- Slot 0 of a stack of `n` identical single-peak frames sums to
`n * (x + y)`. -/
theorem slotSum3D_single_zero_slot (x y : ℚ) (n : Nat) :
    slotSum3D (fun _ => [(x, y)]) n 0 = (n : ℚ) * (x + y) := by
  have hb0 : ∀ i : Nat, bufEntry3 (fun _ => [(x, y)]) 0 0 i = x := fun _ => rfl
  have hb1 : ∀ i : Nat, bufEntry3 (fun _ => [(x, y)]) 0 1 i = y := fun _ => rfl
  unfold slotSum3D
  simp only [List.map_cons, List.map_nil, List.sum_cons, List.sum_nil, hb0, hb1]
  rw [sum_map_const, sum_map_const]
  simp [List.length_range]
  ring

/-- List index `p` below the length cuts off a `getD`-headed tail. -/
theorem drop_getD_cons (recs : List PeakRec) (p : Nat) (hp : p < recs.length) :
    recs.drop p = recs.getD p default :: recs.drop (p + 1) := by
  rw [List.drop_eq_get_cons hp]
  congr 1
  rw [List.getD_eq_get?, List.get?_eq_get hp]
  rfl

/-- `flattenChars` commutes with dropping whole 7-entry blocks. -/
theorem flattenChars_drop7 : ∀ (p : Nat) (recs : List PeakRec),
    (flattenChars recs).drop (7 * p) = flattenChars (recs.drop p) := by
  intro p
  induction p with
  | zero => intro recs; simp
  | succ q ih =>
    intro recs
    cases recs with
    | nil => simp [flattenChars]
    | cons r rs =>
      have h1 : 7 * (q + 1) = 7 + 7 * q := by ring
      rw [h1, ← List.drop_drop]
      have h2 : (flattenChars (r :: rs)).drop 7 = flattenChars rs := by
        have hl : (flattenRec r).length = 7 := rfl
        rw [show flattenChars (r :: rs) = flattenRec r ++ flattenChars rs from rfl,
          ← hl, List.drop_left]
      rw [h2, ih]
      rfl

/-- Entry `7*p + k` of the flattened characteristic layout is entry `k` of
the `p`-th record's 7-entry row. -/
theorem flattenChars_get (recs : List PeakRec) (p k : Nat) (hp : p < recs.length)
    (hk : k < 7) :
    (flattenChars recs).get? (7 * p + k) = (flattenRec (recs.getD p default)).get? k := by
  rw [← List.get?_drop, flattenChars_drop7, drop_getD_cons recs p hp,
    show flattenChars (recs.getD p default :: recs.drop (p + 1))
      = flattenRec (recs.getD p default) ++ flattenChars (recs.drop (p + 1)) from rfl]
  exact List.get?_append (by simp [flattenRec]; omega)

/-! ## Claims -/

/-- Claim C1: in the 3-D and 4-D branches of `peakfind_2D`, after the fill
loop the buffer is truncated at the least slot index whose values, summed
over all images and both coordinate fields, equal exactly zero; for a stack
of `n` identical single-peak frames whose peak is away from the image-local
origin, the trimmed buffer has exactly one slot, holding the detected
coordinates for every image. -/
theorem peakfind_trim_least :
    (∀ (find3 : Nat → List (ℚ × ℚ)) (maxpeakn n : Nat) (r : Peaks3D),
        peakfind3D find3 maxpeakn n = some r →
          slotSum3D find3 n r.numSlots = 0 ∧
          ∀ s, s < r.numSlots → slotSum3D find3 n s ≠ 0) ∧
    (∀ (find4 : Nat → Nat → List (ℚ × ℚ)) (maxpeakn n m : Nat) (r : Peaks4D),
        peakfind4D find4 maxpeakn n m = some r →
          slotSum4D find4 n m r.numSlots = 0 ∧
          ∀ s, s < r.numSlots → slotSum4D find4 n m s ≠ 0) ∧
    (∀ (x y : ℚ) (n maxpeakn : Nat), 0 ≤ x → 0 ≤ y → ¬(x = 0 ∧ y = 0) →
        1 ≤ n → 2 ≤ maxpeakn →
        ∃ r : Peaks3D, peakfind3D (fun _ => [(x, y)]) maxpeakn n = some r ∧
          r.numSlots = 1 ∧ ∀ i, i < n → r.entry 0 0 i = x ∧ r.entry 0 1 i = y) := by
  refine ⟨?_, ?_, ?_⟩
  · intro find3 maxpeakn n r h
    unfold peakfind3D at h
    rw [Option.map_eq_some'] at h
    obtain ⟨t, ht, rfl⟩ := h
    obtain ⟨h1, -, -, h4⟩ := firstSat_some maxpeakn 0 t ht
    exact ⟨of_decide_eq_true h1,
      fun s hs => of_decide_eq_false (h4 s (Nat.zero_le s) hs)⟩
  · intro find4 maxpeakn n m r h
    unfold peakfind4D at h
    rw [Option.map_eq_some'] at h
    obtain ⟨t, ht, rfl⟩ := h
    obtain ⟨h1, -, -, h4⟩ := firstSat_some maxpeakn 0 t ht
    exact ⟨of_decide_eq_true h1,
      fun s hs => of_decide_eq_false (h4 s (Nat.zero_le s) hs)⟩
  · intro x y n maxpeakn hx hy hne hn hm
    have hxy : 0 < x + y := add_pos_of_nonneg_ne hx hy hne
    have hne0 : slotSum3D (fun _ => [(x, y)]) n 0 ≠ 0 := by
      rw [slotSum3D_single_zero_slot]
      have hn0 : (0 : ℚ) < (n : ℚ) := by exact_mod_cast hn
      exact ne_of_gt (mul_pos hn0 hxy)
    have hs1 : slotSum3D (fun _ => [(x, y)]) n 1 = 0 := slotSum3D_single_high x y n 0
    obtain ⟨k, rfl⟩ : ∃ k, maxpeakn = k + 2 := ⟨maxpeakn - 2, by omega⟩
    have htrim : trimId3D (fun _ => [(x, y)]) (k + 2) n = some 1 := by
      unfold trimId3D
      rw [show k + 2 = (k + 1) + 1 from rfl]
      rw [firstSat, if_neg (by simp [hne0])]
      rw [firstSat, if_pos (by simp [hs1])]
    refine ⟨⟨1, fun slot field img =>
      if slot < 1 then bufEntry3 (fun _ => [(x, y)]) slot field img else 0⟩, ?_, rfl, ?_⟩
    · unfold peakfind3D
      rw [htrim]
      rfl
    · intro i _
      exact ⟨rfl, rfl⟩

/-- Claim C1 witness at the concrete stack of 3 identical frames each with
the single peak (1, 2) and `maxpeakn = 2`. -/
theorem peakfind_trim_least_witness :
    ∃ r : Peaks3D, peakfind3D oneFind3 2 3 = some r ∧ r.numSlots = 1 ∧
      ∀ i, i < 3 → r.entry 0 0 i = 1 ∧ r.entry 0 1 i = 2 :=
  peakfind_trim_least.2.2 1 2 3 2 (by norm_num) (by norm_num) (by norm_num)
    (by norm_num) (by norm_num)

/-- Claim C2 counterexample: a rank-5 input does not fail with any raised
condition; `peakfind_2D` falls through its `if/elif` chain and completes
silently without producing a detection result. -/
theorem peakfind_2D_rank5_silent :
    peakfind_2D [3, 3, 3, 3, 3] [] noFind3 noFind4 1 = .ok .noResult := rfl

/-- Claim C2 (amended): for every input whose rank is outside {2, 3, 4},
`peakfind_2D` attempts no detection and completes silently without
producing a detection result — no `UnsupportedRank` (or other) error is
raised. -/
theorem peakfind_2D_unsupported_rank (shape : List Nat) (find2 : List (ℚ × ℚ))
    (find3 : Nat → List (ℚ × ℚ)) (find4 : Nat → Nat → List (ℚ × ℚ))
    (maxpeakn : Nat) (h2 : shape.length ≠ 2) (h3 : shape.length ≠ 3)
    (h4 : shape.length ≠ 4) :
    peakfind_2D shape find2 find3 find4 maxpeakn = .ok .noResult := by
  unfold peakfind_2D
  rw [if_neg h2, if_neg h3, if_neg h4]

/-- Claim C2 witness at a concrete rank-6 shape. -/
theorem peakfind_2D_unsupported_rank_witness :
    peakfind_2D [4, 4, 4, 4, 4, 4] [] oneFind3 oneFind4 5 = .ok .noResult :=
  peakfind_2D_unsupported_rank [4, 4, 4, 4, 4, 4] [] oneFind3 oneFind4 5
    (by decide) (by decide) (by decide)

/-- Claim C7: for a 4-D stack of shape (2, 2, H, W) in which no frame has
any detected peak, every buffer entry stays zero, the trim index is 0, and
the call completes with a zero-slot result. -/
theorem peakfind4D_no_peaks (find4 : Nat → Nat → List (ℚ × ℚ)) (maxpeakn : Nat)
    (hfind : ∀ i j, find4 i j = []) (hm : 1 ≤ maxpeakn) :
    ∃ r : Peaks4D, peakfind4D find4 maxpeakn 2 2 = some r ∧ r.numSlots = 0 := by
  have hbuf : ∀ slot field i j, bufEntry4 find4 slot field i j = 0 := by
    intro slot field i j
    unfold bufEntry4
    rw [hfind]
    rfl
  have hsum : slotSum4D find4 2 2 0 = 0 := by
    unfold slotSum4D
    simp only [hbuf]
    simp [sum_map_zero]
  obtain ⟨k, rfl⟩ : ∃ k, maxpeakn = k + 1 := ⟨maxpeakn - 1, by omega⟩
  have htrim : trimId4D find4 (k + 1) 2 2 = some 0 := by
    unfold trimId4D
    rw [firstSat, if_pos (by simp [hsum])]
  exact ⟨⟨0, fun slot field i j =>
      if slot < 0 then bufEntry4 find4 slot field i j else 0⟩,
    by unfold peakfind4D; rw [htrim]; rfl, rfl⟩

/-- Claim C7 witness with the empty detector and the default-style
preallocation bound 30000. -/
theorem peakfind4D_no_peaks_witness :
    ∃ r : Peaks4D, peakfind4D noFind4 30000 2 2 = some r ∧ r.numSlots = 0 :=
  peakfind4D_no_peaks noFind4 30000 (fun _ _ => rfl) (by norm_num)

/-- Claim C10: the 3-D and 4-D branches return successfully only when some
preallocated slot keeps an exactly-zero coordinate sum: if every slot below
`maxpeakn` has a nonzero sum the trimming step fails (`np.min` of an empty
index set) instead of returning the untrimmed buffer, and a returned result
always has strictly fewer than `maxpeakn` slots. -/
theorem peakfind_trim_bound :
    (∀ (find3 : Nat → List (ℚ × ℚ)) (maxpeakn n : Nat),
        (∀ s, s < maxpeakn → slotSum3D find3 n s ≠ 0) →
          peakfind3D find3 maxpeakn n = none) ∧
    (∀ (find3 : Nat → List (ℚ × ℚ)) (maxpeakn n t : Nat),
        trimId3D find3 maxpeakn n = some t →
          t < maxpeakn ∧
          ∀ r : Peaks3D, peakfind3D find3 maxpeakn n = some r → r.numSlots = t) ∧
    (∀ (find4 : Nat → Nat → List (ℚ × ℚ)) (maxpeakn n m : Nat),
        (∀ s, s < maxpeakn → slotSum4D find4 n m s ≠ 0) →
          peakfind4D find4 maxpeakn n m = none) ∧
    (∀ (find4 : Nat → Nat → List (ℚ × ℚ)) (maxpeakn n m t : Nat),
        trimId4D find4 maxpeakn n m = some t →
          t < maxpeakn ∧
          ∀ r : Peaks4D, peakfind4D find4 maxpeakn n m = some r → r.numSlots = t) := by
  refine ⟨?_, ?_, ?_, ?_⟩
  · intro find3 maxpeakn n h
    have htrim : trimId3D find3 maxpeakn n = none :=
      firstSat_none maxpeakn 0 (fun s _ hs2 =>
        decide_eq_false (h s (by omega)))
    unfold peakfind3D
    rw [htrim]
    rfl
  · intro find3 maxpeakn n t ht
    obtain ⟨-, -, h3, -⟩ := firstSat_some maxpeakn 0 t ht
    refine ⟨by omega, ?_⟩
    intro r hr
    unfold peakfind3D at hr
    rw [ht] at hr
    obtain rfl : _ = r := by injection hr
    rfl
  · intro find4 maxpeakn n m h
    have htrim : trimId4D find4 maxpeakn n m = none :=
      firstSat_none maxpeakn 0 (fun s _ hs2 =>
        decide_eq_false (h s (by omega)))
    unfold peakfind4D
    rw [htrim]
    rfl
  · intro find4 maxpeakn n m t ht
    obtain ⟨-, -, h3, -⟩ := firstSat_some maxpeakn 0 t ht
    refine ⟨by omega, ?_⟩
    intro r hr
    unfold peakfind4D at hr
    rw [ht] at hr
    obtain rfl : _ = r := by injection hr
    rfl

/-- Claim C10 witness: with one detected peak per frame and `maxpeakn = 1`
every slot has a nonzero sum and both branches fail; with `maxpeakn = 2`
the 3-D trim index is 1, strictly below the preallocation bound. -/
theorem peakfind_trim_bound_witness :
    peakfind3D oneFind3 1 1 = none ∧ peakfind4D oneFind4 1 1 1 = none ∧
      (1 : Nat) < 2 := by
  have h30 : slotSum3D oneFind3 1 0 ≠ 0 := by
    show slotSum3D (fun _ => [((1 : ℚ), 2)]) 1 0 ≠ 0
    rw [slotSum3D_single_zero_slot]
    norm_num
  refine ⟨?_, ?_, ?_⟩
  · apply peakfind_trim_bound.1
    intro s hs
    obtain rfl : s = 0 := by omega
    exact h30
  · apply peakfind_trim_bound.2.2.1
    intro s hs
    obtain rfl : s = 0 := by omega
    have h40 : slotSum4D oneFind4 1 1 0 = 3 := by
      show slotSum4D (fun _ _ => [((1 : ℚ), 2)]) 1 1 0 = 3
      unfold slotSum4D bufEntry4
      norm_num [List.range_succ]
    rw [h40]
    norm_num
  · have h31 : slotSum3D oneFind3 1 1 = 0 := slotSum3D_single_high 1 2 1 0
    have htrim : trimId3D oneFind3 2 1 = some 1 := by
      unfold trimId3D
      rw [show (2 : Nat) = 1 + 1 from rfl]
      rw [firstSat, if_neg (by simp [h30])]
      rw [firstSat, if_pos (by simp [h31])]
    exact (peakfind_trim_bound.2.1 oneFind3 2 1 1 htrim).1

/-- Claim C3 counterexample: with the two all-ones frames both assigned to
cluster 0, the returned per-cluster frame holds 2 (the elementwise sum of
the members) while the elementwise mean of the members is 1. -/
theorem cluster_avg_not_mean :
    avg_stack_frame onesStack [0, 0] 0 0 0 = 2 ∧
    clusterMeanSpec onesStack [0, 0] 0 0 0 = 1 ∧
    avg_stack_frame onesStack [0, 0] 0 0 0 ≠ clusterMeanSpec onesStack [0, 0] 0 0 0 := by
  have hm : clusterMembers [0, 0] 0 = [0, 1] := by decide
  have ha : avg_stack_frame onesStack [0, 0] 0 0 0 = 2 := by
    unfold avg_stack_frame cluster_array
    rw [hm]
    norm_num [onesStack]
  have hb : clusterMeanSpec onesStack [0, 0] 0 0 0 = 1 := by
    unfold clusterMeanSpec cluster_array
    rw [hm]
    norm_num [onesStack]
  exact ⟨ha, hb, by rw [ha, hb]; norm_num⟩

/-- Claim C3 (amended): the returned per-cluster frame is the elementwise
SUM of that cluster's member frames (`np.sum(cluster_array, axis=0)`), not
their mean; when a cluster holds exactly one member — as when `k` equals the
stack size and the clustering assigns each member its own singleton
cluster — the per-cluster frame equals that member's frame exactly. -/
theorem cluster_frame_sum_singleton (d : Nat → Frame) (groups : List Nat) (i : Nat) :
    (∀ r c, avg_stack_frame d groups i r c
        = ((clusterMembers groups i).map (fun j => d j r c)).sum) ∧
    ∀ j, clusterMembers groups i = [j] → ∀ r c, avg_stack_frame d groups i r c = d j r c := by
  constructor
  · intro r c
    unfold avg_stack_frame cluster_array
    rw [List.map_map]
    rfl
  · intro j hj r c
    unfold avg_stack_frame cluster_array
    rw [hj]
    simp

/-- Claim C3 witness: member 0 of the stack is the unique member of cluster
0 under the assignment [0, 1], and the cluster frame equals its frame. -/
theorem cluster_frame_sum_singleton_witness :
    avg_stack_frame onesStack [0, 1] 0 0 0 = onesStack 0 0 0 :=
  (cluster_frame_sum_singleton onesStack [0, 1] 0).2 0 (by decide) 0 0

/-- Claim C8: a cluster to which no stack member is assigned has an empty
member array, an all-zero per-cluster frame, and a reported member count of
zero; `kmeans_cluster_stack` completes and reports these. -/
theorem empty_cluster_zero (d : Nat → Frame) (groups : List Nat) (clusters i : Nat)
    (hc : groups.count i = 0) :
    cluster_array d groups i = [] ∧
    (∀ r c, avg_stack_frame d groups i r c = 0) ∧
    (i < clusters → (kmeans_cluster_stack d groups clusters).2.getD i 1 = 0) := by
  have hnotin : i ∉ groups := List.count_eq_zero.mp hc
  have hmem : clusterMembers groups i = [] := by
    unfold clusterMembers
    rw [List.filter_eq_nil_iff]
    intro j hj
    simp only [List.mem_range] at hj
    intro hcontra
    have heq : groups.getD j 0 = i := by
      have := of_decide_eq_true hcontra
      exact beq_iff_eq.mp (by exact_mod_cast hcontra)
    apply hnotin
    rw [← heq, List.getD_eq_get?, List.get?_eq_get hj]
    exact List.get_mem groups j hj
  have hca : cluster_array d groups i = [] := by
    unfold cluster_array
    rw [hmem]
    rfl
  refine ⟨hca, ?_, ?_⟩
  · intro r c
    unfold avg_stack_frame
    rw [hca]
    rfl
  · intro hic
    show ((List.range clusters).map (fun i => groups.count i)).getD i 1 = 0
    rw [List.getD_eq_get?, List.get?_map, List.get?_range hic]
    simp [hc]

/-- Claim C8 witness: cluster 1 is empty under the assignment [0, 0]. -/
theorem empty_cluster_zero_witness :
    cluster_array onesStack [0, 0] 1 = [] ∧
    avg_stack_frame onesStack [0, 0] 1 0 0 = 0 ∧
    (kmeans_cluster_stack onesStack [0, 0] 2).2.getD 1 1 = 0 := by
  have h := empty_cluster_zero onesStack [0, 0] 2 1 (by decide)
  exact ⟨h.1, h.2.1 0 0, h.2.2 (by decide)⟩

/-- Claim C4: component selection validates the requested id against the
factor matrix's column count: selecting the explicit id `ncols - 1`
succeeds, while selecting the id `ncols` fails with `ComponentIndexError`. -/
theorem component_id_validation (m : FactorMatrix) (h : 0 < m.ncols) :
    (∃ v, plotFactorsOrPchars m (.explicit [m.ncols - 1]) = .ok [v]) ∧
    plotFactorsOrPchars m (.explicit [m.ncols]) = .error .componentIndexError := by
  constructor
  · refine ⟨(List.range m.nrows).map (fun r => m.entry r (m.ncols - 1)), ?_⟩
    have hcol : getColumn m (m.ncols - 1)
        = .ok ((List.range m.nrows).map (fun r => m.entry r (m.ncols - 1))) := by
      unfold getColumn
      rw [if_pos (by omega)]
    show selectColumns m [m.ncols - 1] = _
    rw [selectColumns, hcol]
    rfl
  · have hcol : getColumn m m.ncols = .error .componentIndexError := by
      unfold getColumn
      rw [if_neg (by omega)]
    show selectColumns m [m.ncols] = _
    rw [selectColumns, hcol]

/-- Claim C4 witness on a concrete 1x2 factor matrix. -/
theorem component_id_validation_witness :
    (∃ v, plotFactorsOrPchars smallFactors (.explicit [smallFactors.ncols - 1]) = .ok [v]) ∧
    plotFactorsOrPchars smallFactors (.explicit [smallFactors.ncols])
      = .error .componentIndexError :=
  component_id_validation smallFactors (by decide)

/-- Claim C5: when no origin catalogue is available
(`mapped_parameters.original_files` absent), `plot_image_overlay` fails with
the `NoProvenance` condition before doing any mapping work, whatever the
remaining arguments are. -/
theorem overlay_no_provenance (peak_id plot_char plot_component : Option Nat)
    (plot_shift peak_mva : Bool) :
    plot_image_overlay none peak_id plot_char plot_shift peak_mva plot_component
      = .error .noProvenance := rfl

/-- Claim C6: with component analysis performed on peak characteristics, the
shift slice of target peak `p` taken from the chosen component's factor
vector is the pair at entries `7*p + 2` and `7*p + 3` — offsets 2 and 3
inside the `p`-th 7-entry block — and the characteristic scalar for `which`
in {4, 5, 6} is the entry at `7*p + which`, i.e. the height, orientation and
eccentricity fields of that block. -/
theorem peak_shift_char_offsets (m : FactorMatrix) (cid : Nat) (v : List ℚ)
    (recs : List PeakRec) (hv : getColumn m cid = .ok v)
    (hflat : v = flattenChars recs) (p : Nat) (hp : p < recs.length) :
    peak_shift v p = [(recs.getD p default).dx_target, (recs.getD p default).dy_target] ∧
    peak_shift v p = [v.getD (7 * p + 2) 0, v.getD (7 * p + 3) 0] ∧
    peak_characteristic v p 4 = some (recs.getD p default).height ∧
    peak_characteristic v p 5 = some (recs.getD p default).orientation ∧
    peak_characteristic v p 6 = some (recs.getD p default).eccentricity := by
  subst hflat
  have hshift : peak_shift (flattenChars recs) p
      = [(recs.getD p default).dx_target, (recs.getD p default).dy_target] := by
    unfold peak_shift
    rw [← List.drop_drop, flattenChars_drop7, drop_getD_cons recs p hp]
    rfl
  refine ⟨hshift, ?_, ?_, ?_, ?_⟩
  · have hg2 : (flattenChars recs).getD (7 * p + 2) 0
        = (recs.getD p default).dx_target := by
      rw [List.getD_eq_get?, flattenChars_get recs p 2 hp (by omega)]
      rfl
    have hg3 : (flattenChars recs).getD (7 * p + 3) 0
        = (recs.getD p default).dy_target := by
      rw [List.getD_eq_get?, flattenChars_get recs p 3 hp (by omega)]
      rfl
    rw [hshift, hg2, hg3]
  · show (flattenChars recs).get? (7 * p + 4) = _
    rw [flattenChars_get recs p 4 hp (by omega)]
    rfl
  · show (flattenChars recs).get? (7 * p + 5) = _
    rw [flattenChars_get recs p 5 hp (by omega)]
    rfl
  · show (flattenChars recs).get? (7 * p + 6) = _
    rw [flattenChars_get recs p 6 hp (by omega)]
    rfl

/-- Claim C6 witness on the concrete one-record layout `sampleRecs`. -/
theorem peak_shift_char_offsets_witness :
    peak_shift (flattenChars sampleRecs) 0
      = [(sampleRecs.getD 0 default).dx_target, (sampleRecs.getD 0 default).dy_target] ∧
    peak_shift (flattenChars sampleRecs) 0
      = [(flattenChars sampleRecs).getD (7 * 0 + 2) 0,
         (flattenChars sampleRecs).getD (7 * 0 + 3) 0] ∧
    peak_characteristic (flattenChars sampleRecs) 0 4
      = some (sampleRecs.getD 0 default).height ∧
    peak_characteristic (flattenChars sampleRecs) 0 5
      = some (sampleRecs.getD 0 default).orientation ∧
    peak_characteristic (flattenChars sampleRecs) 0 6
      = some (sampleRecs.getD 0 default).eccentricity :=
  peak_shift_char_offsets sampleFactors 0 (flattenChars sampleRecs) sampleRecs
    rfl rfl 0 (by decide)

/-- Claim C9: when the target-location set is omitted, it is derived by
running peak detection on the elementwise average frame of the stack, and
the derived targets are the first two fields (the x, y coordinates) of each
detected peak's record; a supplied set is used unchanged. -/
theorem derived_targets_from_average (detect : Frame → List PeakRec)
    (d : Nat → Frame) (n : Nat) :
    derived_target_locations detect d n none
      = (detect (specAverageFrame d n)).map (fun r => [r.x, r.y]) ∧
    ∀ t, derived_target_locations detect d n (some t) = t := by
  constructor
  · rfl
  · intro t
    rfl

end Exspy
